import Mathlib

set_option linter.unusedVariables false

/-!
Verification of the Banca Transilvania statement parser (`src/bt.js`,
function `extractStatementData` and its helpers) and of the IBAN MOD-97
validator (`src/mod-97.js`), via a shallow embedding in Lean.

Strings are Lean `String`s; the character-level operations mirror the
JavaScript string/regex primitives actually used by the source (`trim`,
`includes`, `split`, `search`, and the handful of concrete regexes).
JavaScript numbers parsed from money strings are modelled as `Option ℚ`,
where `none` stands for `NaN` (the result of `parseFloat` on a string with
no leading numeric prefix).  Exceptions (only possible in `BigInt(...)`
inside `bigIntMod97`) are modelled by `Option` results, `none` being a
thrown exception.
-/

/-! ## Character and string primitives -/

/-- JavaScript whitespace (the ASCII part of `\s`), as used by `trim`,
`\s` / `\S` and the skip tests.  The inputs of interest are ASCII. -/
def jsIsWS (c : Char) : Bool :=
  c == ' ' || c == '\t' || c == '\n' || c == '\r' || c == '\x0b' || c == '\x0c'

/-- JS `String.prototype.trim` on a character list. -/
def trimL (l : List Char) : List Char :=
  ((l.dropWhile jsIsWS).reverse.dropWhile jsIsWS).reverse

/-- JS `String.prototype.trim`. -/
def trimS (s : String) : String := ⟨trimL s.data⟩

/-- JS `raw.search(/\S|$/)`: the number of leading whitespace characters of
the untrimmed line (its length if the line is all whitespace). -/
def leadingWS (s : String) : Nat := (s.data.takeWhile jsIsWS).length

/-- The second list is a prefix of the first. -/
def startsWithL : List Char → List Char → Bool
  | _, [] => true
  | [], _ :: _ => false
  | c :: cs, d :: ds => c == d && startsWithL cs ds

/-- Substring containment (JS `String.prototype.includes`). -/
def containsLAux : List Char → List Char → Bool
  | [], sub => sub.isEmpty
  | c :: cs, sub => startsWithL (c :: cs) sub || containsLAux cs sub

/-- JS `line.includes(sub)`. -/
def containsS (s sub : String) : Bool := containsLAux s.data sub.data

/-- Auxiliary for JS `String.prototype.split(sub)` on a non-empty separator:
`acc` is the current (reversed) segment.  The fuel is an upper bound on the
number of steps; every step consumes at least one character. -/
def splitOnSubAux (sub : List Char) : Nat → List Char → List Char → List (List Char)
  | 0, acc, cs => [acc.reverse ++ cs]
  | fuel + 1, acc, cs =>
    if !sub.isEmpty && startsWithL cs sub then
      acc.reverse :: splitOnSubAux sub fuel [] (cs.drop sub.length)
    else
      match cs with
      | [] => [acc.reverse]
      | c :: rest => splitOnSubAux sub fuel (c :: acc) rest

/-- JS `l.split(sub)` for a non-empty separator `sub`. -/
def splitOnSubL (l sub : List Char) : List (List Char) :=
  splitOnSubAux sub (l.length + 1) [] l

/-- JS `text.split("\n")`, producing the list of raw lines. -/
def splitLines (text : String) : List String :=
  (splitOnSubL text.data ['\n']).map (fun l => (⟨l⟩ : String))

/-- JS `s.split(sub)` on strings. -/
def splitOnS (s sub : String) : List String :=
  (splitOnSubL s.data sub.data).map (fun l => (⟨l⟩ : String))

/-- Collapse every whitespace run to a single space
(JS `replace(/\s+/g, " ")`).  The fuel is an upper bound on the steps. -/
def collapseWSAux : Nat → List Char → List Char
  | 0, l => l
  | _ + 1, [] => []
  | fuel + 1, c :: cs =>
    if jsIsWS c then ' ' :: collapseWSAux fuel (cs.dropWhile jsIsWS)
    else c :: collapseWSAux fuel cs

/-- The description cleanup of `finalizeTransaction`:
`description.trim().replace(/\s+/g, " ")`. -/
def descClean (s : String) : String :=
  ⟨collapseWSAux (s.data.length + 1) (trimL s.data)⟩

/-! ## The concrete regexes of `bt.js` -/

/-- Match `\.\d{2}` exactly at the head of the list, returning the consumed
characters. -/
def amtDot : List Char → Option (List Char)
  | '.' :: a :: b :: _ => if a.isDigit && b.isDigit then some ['.', a, b] else none
  | _ => none

/-- Match `(?:,\d{3})*\.\d{2}` at the head of the list, greedily with
backtracking (a star group cannot be given back usefully: ending the star
at a comma makes the following `\.` fail immediately). -/
def amtTail : List Char → Option (List Char)
  | ',' :: a :: b :: c :: rest =>
    if a.isDigit && b.isDigit && c.isDigit then
      match amtTail rest with
      | some m => some (',' :: a :: b :: c :: m)
      | none => none
    else amtDot (',' :: a :: b :: c :: rest)
  | l => amtDot l

/-- Match the amount pattern `\d{1,3}(?:,\d{3})*\.\d{2}` anchored at the head
of the list: `\d{1,3}` is greedy (3, then 2, then 1 digits). -/
def amountAt (l : List Char) : Option (List Char) :=
  let dlen := (l.takeWhile Char.isDigit).length
  let tryK : Nat → Option (List Char) := fun k =>
    if 1 ≤ k ∧ k ≤ dlen then
      match amtTail (l.drop k) with
      | some m => some (l.take k ++ m)
      | none => none
    else none
  (tryK 3).orElse fun _ => (tryK 2).orElse fun _ => tryK 1

/-- Leftmost match of the amount regex (JS `line.match(amountRegex)[1]`). -/
def firstAmountL : List Char → Option (List Char)
  | [] => none
  | c :: cs =>
    match amountAt (c :: cs) with
    | some m => some m
    | none => firstAmountL cs

/-- JS `line.match(/(\d{1,3}(?:,\d{3})*\.\d{2})/)`, returning group 1. -/
def firstAmountStr (s : String) : Option String :=
  (firstAmountL s.data).map (fun l => (⟨l⟩ : String))

/-- JS `^(\d{1,3}(?:,\d{3})*\.\d{2})$` (anchored full match): the grammar is
deterministic, so the string matches iff the greedy head match consumes it
entirely. -/
def fullMoneyTest (s : String) : Bool :=
  match amountAt s.data with
  | some m => m == s.data
  | none => false

/-- All matches of the amount regex with the `g` flag: leftmost,
non-overlapping, resuming after each match. -/
def matchAllAux : Nat → List Char → List (List Char)
  | 0, _ => []
  | _ + 1, [] => []
  | fuel + 1, c :: cs =>
    match amountAt (c :: cs) with
    | some m => m :: matchAllAux fuel ((c :: cs).drop m.length)
    | none => matchAllAux fuel cs

/-- JS `s.match(/(\d{1,3}(?:,\d{3})*\.\d{2})/g)` as a (possibly empty) list. -/
def matchAllAmounts (s : String) : List String :=
  (matchAllAux (s.data.length + 1) s.data).map (fun l => (⟨l⟩ : String))

/-- JS `/^(\d{2}\/\d{2}\/\d{4})$/` (anchored date line). -/
def isDateL : List Char → Bool
  | [d1, d2, '/', m1, m2, '/', y1, y2, y3, y4] =>
    d1.isDigit && d2.isDigit && m1.isDigit && m2.isDigit &&
    y1.isDigit && y2.isDigit && y3.isDigit && y4.isDigit
  | _ => false

def isDateLine (s : String) : Bool := isDateL s.data

/-- Match `(\d{2}\/\d{2}\/\d{4})RULAJ ZI` at the head, returning the date. -/
def dailyAt : List Char → Option (List Char)
  | d1 :: d2 :: '/' :: m1 :: m2 :: '/' :: y1 :: y2 :: y3 :: y4 :: rest =>
    if d1.isDigit && d2.isDigit && m1.isDigit && m2.isDigit &&
       y1.isDigit && y2.isDigit && y3.isDigit && y4.isDigit &&
       startsWithL rest "RULAJ ZI".data
    then some [d1, d2, '/', m1, m2, '/', y1, y2, y3, y4]
    else none
  | _ => none

def dailySearchL : List Char → Option (List Char)
  | [] => none
  | c :: cs =>
    match dailyAt (c :: cs) with
    | some m => some m
    | none => dailySearchL cs

/-- JS `line.match(/(\d{2}\/\d{2}\/\d{4})RULAJ ZI/)`, returning group 1. -/
def dailySearch (s : String) : Option String :=
  (dailySearchL s.data).map (fun l => (⟨l⟩ : String))

/-- The character class `[A-Z\s]` of the owner/client regex. -/
def ocClassChar (c : Char) : Bool := c.isUpper || jsIsWS c

/-- Backtracking on the greedy group `([A-Z\s]+)` of
`/([A-Z\s]+)Client:\s*(\d+)/`: try the group length from `k` down to 1. -/
def ocTry (l : List Char) : Nat → Option (String × String)
  | 0 => none
  | k + 1 =>
    let rest := l.drop (k + 1)
    if startsWithL rest "Client:".data then
      let afterWS := (rest.drop 7).dropWhile jsIsWS
      let digits := afterWS.takeWhile Char.isDigit
      if digits.isEmpty then ocTry l k
      else some ((⟨l.take (k + 1)⟩ : String), (⟨digits⟩ : String))
    else ocTry l k

/-- Match `([A-Z\s]+)Client:\s*(\d+)` anchored at the head of the list. -/
def ownerClientAt (l : List Char) : Option (String × String) :=
  ocTry l (l.takeWhile ocClassChar).length

def ownerClientSearchL : List Char → Option (String × String)
  | [] => none
  | c :: cs =>
    match ownerClientAt (c :: cs) with
    | some r => some r
    | none => ownerClientSearchL cs

/-- JS `line.match(/([A-Z\s]+)Client:\s*(\d+)/)`, returning (group 1, group 2). -/
def ownerClientSearch (s : String) : Option (String × String) :=
  ownerClientSearchL s.data

/-- Match `Cod IBAN:\s*(RO\d+[A-Z0-9]+)` at the head of the list.  After
`RO`, greediness of `\d+` followed by `[A-Z0-9]+` means the capture is `RO`
plus the whole following alphanumeric run, which must start with a digit and
have at least two characters. -/
def ibanAt (l : List Char) : Option String :=
  if startsWithL l "Cod IBAN:".data then
    let afterWS := (l.drop 9).dropWhile jsIsWS
    if startsWithL afterWS "RO".data then
      let run := (afterWS.drop 2).takeWhile (fun c => c.isUpper || c.isDigit)
      match run with
      | a :: _ :: _ => if a.isDigit then some (⟨'R' :: 'O' :: run⟩ : String) else none
      | _ => none
    else none
  else none

def ibanSearchL : List Char → Option String
  | [] => none
  | c :: cs =>
    match ibanAt (c :: cs) with
    | some r => some r
    | none => ibanSearchL cs

/-- JS `line.match(/Cod IBAN:\s*(RO\d+[A-Z0-9]+)/)`, returning group 1. -/
def ibanSearch (s : String) : Option String := ibanSearchL s.data

/-- Match `;\s*([^;]+);\s*$` at the head of the list.  Because `\s*` and
`[^;]+` only trade leading whitespace between them, the trimmed capture
(the source stores `ownerMatch[1].trim()`) equals the trimmed segment
between this semicolon and the next one. -/
def ownerAt : List Char → Option String
  | ';' :: cs =>
    let seg := cs.takeWhile (fun c => c != ';')
    match cs.drop seg.length with
    | ';' :: tail =>
      if !seg.isEmpty && tail.all jsIsWS then some (⟨trimL seg⟩ : String) else none
    | _ => none
  | _ => none

def ownerSearchL : List Char → Option String
  | [] => none
  | c :: cs =>
    match ownerAt (c :: cs) with
    | some r => some r
    | none => ownerSearchL cs

/-- JS `line.match(/;\s*([^;]+);\s*$/)`, already trimmed as stored. -/
def ownerSearch (s : String) : Option String := ownerSearchL s.data

/-- Match `-\s*([\d,.]+)\s*RON\s*aferenta\s*tranzactiei\s*(.*)` at the head,
returning (group 1, group 2). -/
def blockedAt : List Char → Option (String × String)
  | '-' :: cs =>
    let a1 := cs.dropWhile jsIsWS
    let amt := a1.takeWhile (fun c => c.isDigit || c == ',' || c == '.')
    if amt.isEmpty then none
    else
      let a2 := (a1.drop amt.length).dropWhile jsIsWS
      if startsWithL a2 "RON".data then
        let a3 := (a2.drop 3).dropWhile jsIsWS
        if startsWithL a3 "aferenta".data then
          let a4 := (a3.drop 8).dropWhile jsIsWS
          if startsWithL a4 "tranzactiei".data then
            let a5 := (a4.drop 11).dropWhile jsIsWS
            some ((⟨amt⟩ : String), (⟨a5⟩ : String))
          else none
        else none
      else none
  | _ => none

def blockedSearchL : List Char → Option (String × String)
  | [] => none
  | c :: cs =>
    match blockedAt (c :: cs) with
    | some r => some r
    | none => blockedSearchL cs

/-- JS `line.match(blockedAmountRegex)`, returning (group 1, group 2). -/
def blockedSearch (s : String) : Option (String × String) := blockedSearchL s.data

/-- Match `\d+\s*\/\s*4` at the head of the list. -/
def pageNumAt (l : List Char) : Bool :=
  let ds := l.takeWhile Char.isDigit
  if ds.isEmpty then false
  else
    match (l.drop ds.length).dropWhile jsIsWS with
    | '/' :: r2 =>
      match r2.dropWhile jsIsWS with
      | '4' :: _ => true
      | _ => false
    | _ => false

/-- JS `/\d+\s*\/\s*4/.test(line)` (page-number marker like `1 / 4`). -/
def pageNumTestL : List Char → Bool
  | [] => false
  | c :: cs => pageNumAt (c :: cs) || pageNumTestL cs

/-- `isHeaderOrFooterLine` of `bt.js` (applied to the trimmed line). -/
def isHeaderOrFooterLine (line : String) : Bool :=
  containsS line "BANCA TRANSILVANIA" || containsS line "Info clienti" ||
  containsS line "BT24@bancatransilvania.ro" || containsS line "Solicitant:" ||
  containsS line "Tiparit:" || containsS line "C.U.I." || containsS line "SWIFT:" ||
  containsS line "www.bancatransilvania.ro" || containsS line "Clasificare BT:" ||
  pageNumTestL line.data

/-- The description-start regex
`/^(Plata|Incasare|P2P|Constituire|Maturizare|Procesare|Comision)/i`. -/
def descStartTest (line : String) : Bool :=
  let low := line.data.map Char.toLower
  ["plata", "incasare", "p2p", "constituire", "maturizare", "procesare",
   "comision"].any (fun kw => startsWithL low kw.data)

/-- JS `/CONT|SOLD ANTERIOR/.test(line)`. -/
def matchContOrSold (line : String) : Bool :=
  containsS line "CONT" || containsS line "SOLD ANTERIOR"

/-! ## Number parsing (`parseAmount`) -/

/-- Decimal value of a digit list (most significant first). -/
def digitsToNat (ds : List Char) : Nat :=
  ds.foldl (fun a c => a * 10 + (c.toNat - 48)) 0

/-- JS `parseFloat` restricted to the digit/dot strings this program feeds
it: the longest numeric prefix `\d*\.?\d*` with at least one digit; `none`
models `NaN`.  The value `intPart + fracPart / 10 ^ fracLen` is built with
`mkRat` over natural-number arithmetic. -/
def parseFloatQ (l : List Char) : Option ℚ :=
  let ip := l.takeWhile Char.isDigit
  match l.drop ip.length with
  | '.' :: r2 =>
    let fp := r2.takeWhile Char.isDigit
    if ip.isEmpty && fp.isEmpty then none
    else some (mkRat (digitsToNat ip * 10 ^ fp.length + digitsToNat fp) (10 ^ fp.length))
  | _ => if ip.isEmpty then none else some (mkRat (digitsToNat ip) 1)

/-- `parseAmount` of `bt.js`: `parseFloat(amountStr.replace(/,/g, ""))`. -/
def parseAmountQ (s : String) : Option ℚ :=
  parseFloatQ (s.data.filter (fun c => c != ','))

/-! ## Data model (`extractStatementData` state and results) -/

structure DailyTurnover where
  date : String
  debit : Option ℚ
  credit : Option ℚ
deriving Repr, DecidableEq

structure BlockedAmount where
  amount : Option ℚ
  description : String
deriving Repr, DecidableEq

/-- The `accountInfo` accumulator.  `turnover.total.debit` and
`turnover.total.credit` are flattened into two fields. -/
structure AccountInfo where
  accountOwner : String
  clientNumber : String
  iban : String
  currency : String
  finalBalance : Option ℚ
  turnoverTotalDebit : Option ℚ
  turnoverTotalCredit : Option ℚ
  turnoverDaily : List DailyTurnover
  blockedAmounts : List BlockedAmount
deriving Repr, DecidableEq

inductive TxType where
  | income
  | expense
deriving Repr, DecidableEq

structure Transaction where
  date : String
  description : String
  amount : Option ℚ
  type : Option TxType
  reference : Option String
  accountOwner : Option String
deriving Repr, DecidableEq

/-- The mutable state of the single pass in `extractStatementData`. -/
structure PState where
  accountInfo : AccountInfo
  transactions : List Transaction
  currentDate : Option String
  transaction : Option Transaction
  blockedAmountsSection : Bool
  inTransactionSection : Bool
deriving Repr, DecidableEq

def initAccountInfo : AccountInfo :=
  { accountOwner := "", clientNumber := "", iban := "", currency := ""
    finalBalance := none, turnoverTotalDebit := none, turnoverTotalCredit := none
    turnoverDaily := [], blockedAmounts := [] }

def initState : PState :=
  { accountInfo := initAccountInfo, transactions := [], currentDate := none
    transaction := none, blockedAmountsSection := false, inTransactionSection := false }

/-! ## The account-metadata rules (fire conditions and extracted values).

Each rule of the source updates a disjoint set of `accountInfo` fields and
contains no early `continue`, so the sequential updates of the source are
written as one record literal below. -/

def ownerClientFires0 (line : String) : Bool := (ownerClientSearch line).isSome

def ownerVal0 (line : String) : String :=
  match ownerClientSearch line with
  | some p => trimS p.1
  | none => ""

def clientVal0 (line : String) : String :=
  match ownerClientSearch line with
  | some p => trimS p.2
  | none => ""

def ibanFires0 (line : String) : Bool := (ibanSearch line).isSome

def ibanVal0 (line : String) : String :=
  match ibanSearch line with
  | some g => trimS g
  | none => ""

def currencyFires0 (line : String) (next : Option String) : Bool :=
  containsS line "Valuta" &&
    match next with
    | some n => decide (3 ≤ (trimS n).data.length)
    | none => false

def currencyVal0 (next : Option String) : String :=
  match next with
  | some n => (⟨(trimS n).data.take 3⟩ : String)
  | none => ""

def finalBalanceFires0 (line : String) (next : Option String) : Bool :=
  containsS line "SOLD FINAL CONT" &&
    match next with
    | some n => fullMoneyTest (trimS n)
    | none => false

def finalBalanceVal0 (next : Option String) : Option ℚ :=
  match next with
  | some n => parseAmountQ (trimS n)
  | none => none

def dailyFires0 (line : String) (next : Option String) : Bool :=
  (dailySearch line).isSome &&
    match next with
    | some n => decide (5 ≤ (trimS n).data.length)
    | none => false

/-- The daily-turnover entry: `valuesLine.slice(0, -5)` is the debit and
`valuesLine.slice(-5)` the credit. -/
def dailyVal0 (line : String) (next : Option String) : DailyTurnover :=
  { date := (dailySearch line).getD ""
    debit :=
      match next with
      | some n => parseAmountQ (⟨(trimS n).data.take ((trimS n).data.length - 5)⟩ : String)
      | none => none
    credit :=
      match next with
      | some n => parseAmountQ (⟨(trimS n).data.drop ((trimS n).data.length - 5)⟩ : String)
      | none => none }

def totalFires0 (line : String) (next : Option String) : Bool :=
  containsS line "RULAJ TOTAL CONT" &&
    match next with
    | some n => decide (2 ≤ (matchAllAmounts n).length)
    | none => false

/-- Note: the total-turnover rule runs the global regex on the *untrimmed*
next line. -/
def totalVal0 (next : Option String) : Option ℚ × Option ℚ :=
  match next with
  | some n =>
    (parseAmountQ ((matchAllAmounts n).getD 0 ""), parseAmountQ ((matchAllAmounts n).getD 1 ""))
  | none => (none, none)

/-- All account-metadata extraction rules applied to one (trimmed) line with
its one-line raw lookahead. -/
def applyScalars (ai : AccountInfo) (line : String) (next : Option String) : AccountInfo :=
  { accountOwner := if ownerClientFires0 line then ownerVal0 line else ai.accountOwner
    clientNumber := if ownerClientFires0 line then clientVal0 line else ai.clientNumber
    iban := if ibanFires0 line then ibanVal0 line else ai.iban
    currency := if currencyFires0 line next then currencyVal0 next else ai.currency
    finalBalance := if finalBalanceFires0 line next then finalBalanceVal0 next else ai.finalBalance
    turnoverTotalDebit := if totalFires0 line next then (totalVal0 next).1 else ai.turnoverTotalDebit
    turnoverTotalCredit := if totalFires0 line next then (totalVal0 next).2 else ai.turnoverTotalCredit
    turnoverDaily := ai.turnoverDaily ++ (if dailyFires0 line next then [dailyVal0 line next] else [])
    blockedAmounts := ai.blockedAmounts }

/-! ## The transaction state machine -/

/-- Date reformatting of `finalizeTransaction`:
`const [d, m, y] = date.split("/")` then `y-m-d`; a missing part stringifies
as `undefined` in JS. -/
def reformatDate (d : String) : String :=
  let parts := splitOnS d "/"
  (parts.getD 2 "undefined") ++ "-" ++ (parts.getD 1 "undefined") ++ "-" ++ (parts.getD 0 "undefined")

def closeTx (t : Transaction) : Transaction :=
  { t with description := descClean t.description, date := reformatDate t.date }

/-- `finalizeTransaction` of `extractStatementData`: pushes and clears only
when the amount is non-null; otherwise the open transaction is left as is. -/
def finalizeTx (s : PState) : PState :=
  match s.transaction with
  | some t =>
    if t.amount.isSome then
      { s with transactions := s.transactions ++ [closeTx t], transaction := none }
    else s
  | none => s

def newTx (d line : String) : Transaction :=
  { date := d, description := line ++ " ", amount := none, type := none
    reference := none, accountOwner := none }

/-- `line.split('REF:')[1].trim()`; index 1 exists whenever the guard
`line.includes("REF:")` held. -/
def refAfter (line : String) : String :=
  trimS (((splitOnSubL line.data "REF:".data).map (fun l => (⟨l⟩ : String))).getD 1 "")

/-- The owner-capture update: `transaction.accountOwner = ownerMatch[1].trim()`
when the owner pattern matches (applied even on an end-marker line). -/
def ownerUpdTx (t : Transaction) (line : String) : Transaction :=
  match ownerSearch line with
  | some o => { t with accountOwner := some o }
  | none => t

/-- Processing of a line while a transaction is open: amount, then
reference, then owner capture plus end-of-day markers / description
accumulation. -/
def handleOpen (s : PState) (line raw : String) : PState :=
  match s.transaction with
  | none => s
  | some t =>
    match firstAmountStr line with
    | some m =>
      { s with transaction := some { t with
          amount := parseAmountQ m
          type := some (if 6 ≤ leadingWS raw then TxType.income else TxType.expense) } }
    | none =>
      if containsS line "REF:" then
        { s with transaction := some { t with reference := some (refAfter line) } }
      else
        if containsS line "RULAJ ZI" || containsS line "SOLD FINAL ZI" then
          finalizeTx { s with transaction := some (ownerUpdTx t line) }
        else
          { s with transaction := some { ownerUpdTx t line with
              description := (ownerUpdTx t line).description ++ line ++ " " } }

/-- The transaction-section part of the loop body (only reached once
`inTransactionSection` is on). -/
def stepTx (s : PState) (line raw : String) : PState :=
  if isDateLine line then { s with currentDate := some line }
  else
    match s.currentDate, descStartTest line with
    | some d, true => { finalizeTx s with transaction := some (newTx d line) }
    | _, _ => handleOpen s line raw

/-- The blocked-amounts rule: while the section flag is on, a matching line
appends an entry (`parseAmount(match[1])`, `match[2].trim()`). -/
def blockedUpd (s : PState) (line : String) : PState :=
  if s.blockedAmountsSection then
    match blockedSearch line with
    | some p =>
      { s with accountInfo := { s.accountInfo with
          blockedAmounts := s.accountInfo.blockedAmounts ++
            [{ amount := parseAmountQ p.1, description := trimS p.2 }] } }
    | none => s
  else s

/-- The section bookkeeping and transaction part of the loop body, after the
account-metadata rules. -/
def stepSections (s : PState) (line raw : String) : PState :=
  if containsS line "SUME BLOCATE" then { s with blockedAmountsSection := true }
  else if s.blockedAmountsSection && containsS line "TOTAL DISPONIBIL" then
    { s with blockedAmountsSection := false }
  else
    if matchContOrSold line then { blockedUpd s line with inTransactionSection := true }
    else if (blockedUpd s line).inTransactionSection then stepTx (blockedUpd s line) line raw
    else blockedUpd s line

/-- The skip test at the top of the loop body:
`if (!line || isHeaderOrFooterLine(line)) continue;`. -/
def skipLine (raw : String) : Bool :=
  trimS raw == "" || isHeaderOrFooterLine (trimS raw)

/-- One iteration of the loop of `extractStatementData` over the raw line
`raw` with raw lookahead `next`. -/
def step (s : PState) (raw : String) (next : Option String) : PState :=
  if skipLine raw then s
  else stepSections { s with accountInfo := applyScalars s.accountInfo (trimS raw) next } (trimS raw) raw

/-- The whole loop: each line is processed with the following raw line as
lookahead. -/
def go : PState → List String → PState
  | s, [] => s
  | s, raw :: rest => go (step s raw rest.head?) rest

structure ExtractResult where
  accountInfo : AccountInfo
  transactions : List Transaction
deriving Repr, DecidableEq

/-- `extractStatementData` of `bt.js`: split into lines, run the loop, then
finalize any last open transaction. -/
def extractStatementData (text : String) : ExtractResult :=
  let final := finalizeTx (go initState (splitLines text))
  { accountInfo := final.accountInfo, transactions := final.transactions }

/-! ## The IBAN MOD-97 validator (`src/mod-97.js`) -/

/-- The character class `[A-Z]` (also the uppercase letters of the IBAN
component), via code points. -/
def isUpperAZ (c : Char) : Bool := decide (65 ≤ c.toNat) && decide (c.toNat ≤ 90)

/-- The decimal digit characters `0`-`9`, i.e. the single-character strings
accepted by `BigInt(...)` in this program. -/
def isDigit09 (c : Char) : Bool := decide (48 ≤ c.toNat) && decide (c.toNat ≤ 57)

/-- JS `toUpperCase` on the ASCII range (the only characters these inputs
contain). -/
def jsToUpper (c : Char) : Char :=
  if 97 ≤ c.toNat ∧ c.toNat ≤ 122 then Char.ofNat (c.toNat - 32) else c

def romanianBankCodes : List String :=
  ["RNCB", "BRDE", "BTRL", "INGB", "RZBR", "BFER", "CECEB", "CARP", "PIRB",
   "BACX", "OTPV", "CRCO", "FTSB", "ALBZ", "UGBI", "BPOS", "VNBC", "TREZ",
   "VIRL", "DAFB", "MMEB", "SBIU", "BREL", "PORL", "REVO"]

/-- `cleanIban`: strip whitespace and hyphens, then uppercase. -/
def cleanIbanL (l : List Char) : List Char :=
  (l.filter (fun c => !(jsIsWS c || c == '-'))).map jsToUpper

def cleanIban (s : String) : String := ⟨cleanIbanL s.data⟩

/-- `convertLettersToNumbers` on one character.  The `LETTER_TO_NUMBER`
table maps A=10 … Z=35, which is `toNat - 55`, rendered as two decimal
digits; every other character passes through. -/
def convChar (c : Char) : List Char :=
  if isUpperAZ c then
    [Nat.digitChar ((c.toNat - 55) / 10), Nat.digitChar ((c.toNat - 55) % 10)]
  else [c]

def convertLettersToNumbers : List Char → List Char
  | [] => []
  | c :: cs => convChar c ++ convertLettersToNumbers cs

/-- The digit-by-digit MOD-97 loop of `bigIntMod97`.  `BigInt` on a
single non-digit character throws a SyntaxError, modelled as `none`. -/
def bigIntMod97Aux : Nat → List Char → Option Nat
  | r, [] => some r
  | r, c :: cs =>
    if isDigit09 c then bigIntMod97Aux ((r * 10 + (c.toNat - 48)) % 97) cs else none

/-- `bigIntMod97(numStr)`; `none` models a thrown exception. -/
def bigIntMod97 (numStr : String) : Option Nat := bigIntMod97Aux 0 numStr.data

/-- `(98 - remainder).toString().padStart(2, "0")` for a natural number. -/
def padStart2 (n : Nat) : List Char :=
  if n < 10 then ['0', Nat.digitChar n]
  else if n < 100 then [Nat.digitChar (n / 10), Nat.digitChar (n % 10)]
  else Nat.toDigits 10 n

/-- `calculateIbanCheckDigits`; `none` models a thrown exception inside
`bigIntMod97` (impossible for alphanumeric inputs). -/
def calculateIbanCheckDigits (countryCode bankCode accountId : String) : Option String :=
  let artificialIban := countryCode.data ++ ['0', '0'] ++ bankCode.data ++ accountId.data
  let rearranged := artificialIban.drop 4 ++ artificialIban.take 4
  (bigIntMod97Aux 0 (convertLettersToNumbers rearranged)).map
    (fun r => (⟨padStart2 (98 - r)⟩ : String))

/-- `validateIbanChecksum`; returns a plain boolean in the source, and can
throw (modelled by `none`) when the cleaned input contains a character that
is neither a letter nor a digit. -/
def validateIbanChecksum (iban : String) : Option Bool :=
  let cleanedIban := cleanIbanL iban.data
  let rearranged := cleanedIban.drop 4 ++ cleanedIban.take 4
  (bigIntMod97Aux 0 (convertLettersToNumbers rearranged)).map (fun r => r == 1)

structure StructResult where
  isValid : Bool
  error : Option String
deriving Repr, DecidableEq

def lengthErrMsg (n : Nat) : String :=
  "IBAN must be 24 characters long (current: " ++ toString n ++ ")"

/-- `/^\d{2}$/` on a substring. -/
def regexTwoDigits (l : List Char) : Bool := l.length == 2 && l.all isDigit09

/-- `/^[A-Z]{4}$/` on a substring. -/
def regexFourUpper (l : List Char) : Bool := l.length == 4 && l.all isUpperAZ

/-- `/^[A-Z0-9]{16}$/` on a substring. -/
def regexAlnum16 (l : List Char) : Bool :=
  l.length == 16 && l.all (fun c => isUpperAZ c || isDigit09 c)

/-- `validateRomanianIbanStructure`: cleans, then checks length, country
prefix, check digits, bank code and account identifier in order,
short-circuiting on the first failure. -/
def validateRomanianIbanStructure (iban : String) : StructResult :=
  if (cleanIbanL iban.data).length ≠ 24 then
    { isValid := false, error := some (lengthErrMsg (cleanIbanL iban.data).length) }
  else if !startsWithL (cleanIbanL iban.data) ['R', 'O'] then
    { isValid := false, error := some "IBAN must start with RO for Romanian accounts" }
  else if !regexTwoDigits (((cleanIbanL iban.data).drop 2).take 2) then
    { isValid := false, error := some "Check digits (positions 3-4) must be numeric" }
  else if !regexFourUpper (((cleanIbanL iban.data).drop 4).take 4) then
    { isValid := false, error := some "Bank code (positions 5-8) must be 4 uppercase letters" }
  else if !regexAlnum16 ((cleanIbanL iban.data).drop 8) then
    { isValid := false, error := some "Account identifier must be 16 alphanumeric characters" }
  else { isValid := true, error := none }

/-- Insert a space after every complete group of four characters
(JS `replace(/(.{4})/g, "$1 ")`). -/
def chunk4 : List Char → List Char
  | a :: b :: c :: d :: rest => a :: b :: c :: d :: ' ' :: chunk4 rest
  | l => l

/-- `formatIban`: its internal cleanup strips only whitespace (not
hyphens), uppercases, groups by four, and trims the trailing space. -/
def formatIban (iban : String) : String :=
  if iban = "" then ""
  else ⟨trimL (chunk4 ((iban.data.filter (fun c => !jsIsWS c)).map Char.toUpper))⟩

/-- The structured result of `validateIban` / `validateIbanRealTime`.  The
source returns plain objects whose absent keys are modelled as `none`. -/
structure IbanResult where
  isValid : Bool
  error : Option String
  warning : Option String
  bankCode : Option String
  formatted : Option String
deriving Repr, DecidableEq

/-- The bank code `cleanedIban.substring(4, 8)` used by `validateIban`. -/
def ibanBankCode (iban : String) : String := ⟨((cleanIban iban).data.drop 4).take 4⟩

/-- `validateIban`: empty check, cleanup, structural validation, checksum
(the only spot where an exception — `none` — could propagate), then the
known-bank warning.  The source binds `cleanedIban`, `structureValidation`,
`bankCode` and `isKnownBank` once each; they are inlined here. -/
def validateIban (iban : String) : Option IbanResult :=
  if iban = "" then
    some { isValid := false, error := some "IBAN is required", warning := none
           bankCode := none, formatted := none }
  else
    if (validateRomanianIbanStructure (cleanIban iban)).isValid = false then
      some { isValid := false
             error := (validateRomanianIbanStructure (cleanIban iban)).error
             warning := none, bankCode := none, formatted := none }
    else
      match validateIbanChecksum (cleanIban iban) with
      | none => none
      | some checksumValid =>
        if checksumValid = false then
          some { isValid := false, error := some "Invalid IBAN checksum", warning := none
                 bankCode := none, formatted := none }
        else
          some { isValid := true, error := none
                 warning :=
                   if romanianBankCodes.contains (ibanBankCode iban) then none
                   else some ("Bank code " ++ ibanBankCode iban ++
                     " is not in our dataset of known Romanian banks")
                 bankCode := some (ibanBankCode iban)
                 formatted := some (formatIban (cleanIban iban)) }

/-- `validateIbanRealTime`: prefix checks gated on the cleaned length.  The
source binds the cleaned string once; it is inlined here. -/
def validateIbanRealTime (iban : String) : Option IbanResult :=
  if iban = "" then
    some { isValid := true, error := none, warning := none, bankCode := none, formatted := none }
  else
    if 2 ≤ (cleanIbanL iban.data).length ∧
        startsWithL (cleanIbanL iban.data) ['R', 'O'] = false then
      some { isValid := false, error := some "IBAN must start with RO", warning := none
             bankCode := none, formatted := none }
    else if 4 ≤ (cleanIbanL iban.data).length ∧
        regexTwoDigits (((cleanIbanL iban.data).drop 2).take 2) = false then
      some { isValid := false, error := some "Check digits must be numeric", warning := none
             bankCode := none, formatted := none }
    else if 8 ≤ (cleanIbanL iban.data).length ∧
        regexFourUpper (((cleanIbanL iban.data).drop 4).take 4) = false then
      some { isValid := false, error := some "Bank code must be 4 uppercase letters", warning := none
             bankCode := none, formatted := none }
    else if 8 < (cleanIbanL iban.data).length ∧
        ((cleanIbanL iban.data).drop 8).all (fun c => isUpperAZ c || isDigit09 c) = false then
      some { isValid := false, error := some "Account identifier can only contain letters and numbers"
             warning := none, bankCode := none, formatted := none }
    else if 24 < (cleanIbanL iban.data).length then
      some { isValid := false, error := some "IBAN cannot exceed 24 characters", warning := none
             bankCode := none, formatted := none }
    else if (cleanIbanL iban.data).length = 24 then
      validateIban (⟨cleanIbanL iban.data⟩ : String)
    else
      some { isValid := true, error := none, warning := none, bankCode := none, formatted := none }

/-! ## Structural lemmas about the parser step -/

theorem finalizeTx_accountInfo (s : PState) : (finalizeTx s).accountInfo = s.accountInfo := by
  unfold finalizeTx
  split
  · split <;> rfl
  · rfl

theorem closeTx_amount (t : Transaction) : (closeTx t).amount = t.amount := rfl

theorem finalizeTx_mem (s : PState) (tx : Transaction)
    (h : tx ∈ (finalizeTx s).transactions) :
    tx ∈ s.transactions ∨ tx.amount.isSome = true := by
  unfold finalizeTx at h
  split at h
  case h_1 t heq =>
    split at h
    case isTrue hAmt =>
      simp only [List.mem_append, List.mem_singleton] at h
      rcases h with h | h
      · exact Or.inl h
      · right; rw [h, closeTx_amount]; exact hAmt
    case isFalse => exact Or.inl h
  case h_2 => exact Or.inl h

theorem handleOpen_accountInfo (s : PState) (line raw : String) :
    (handleOpen s line raw).accountInfo = s.accountInfo := by
  unfold handleOpen
  split
  · rfl
  · split
    · rfl
    · split
      · rfl
      · split
        · rw [finalizeTx_accountInfo]
        · rfl

theorem stepTx_accountInfo (s : PState) (line raw : String) :
    (stepTx s line raw).accountInfo = s.accountInfo := by
  unfold stepTx
  split
  · rfl
  · split
    · show (finalizeTx s).accountInfo = s.accountInfo
      exact finalizeTx_accountInfo s
    · exact handleOpen_accountInfo s line raw

theorem blockedUpd_accountInfo (s : PState) (line : String) :
    ∃ b, (blockedUpd s line).accountInfo = { s.accountInfo with blockedAmounts := b } := by
  unfold blockedUpd
  split
  · split
    · exact ⟨_, rfl⟩
    · exact ⟨s.accountInfo.blockedAmounts, rfl⟩
  · exact ⟨s.accountInfo.blockedAmounts, rfl⟩

theorem stepSections_accountInfo (s : PState) (line raw : String) :
    ∃ b, (stepSections s line raw).accountInfo = { s.accountInfo with blockedAmounts := b } := by
  unfold stepSections
  split
  · exact ⟨s.accountInfo.blockedAmounts, rfl⟩
  · split
    · exact ⟨s.accountInfo.blockedAmounts, rfl⟩
    · obtain ⟨b, hb⟩ := blockedUpd_accountInfo s line
      split
      · exact ⟨b, hb⟩
      · split
        · rw [stepTx_accountInfo, hb]; exact ⟨b, rfl⟩
        · exact ⟨b, hb⟩

theorem blockedUpd_transactions (s : PState) (line : String) :
    (blockedUpd s line).transactions = s.transactions := by
  unfold blockedUpd
  split
  · split <;> rfl
  · rfl

theorem blockedUpd_transaction (s : PState) (line : String) :
    (blockedUpd s line).transaction = s.transaction := by
  unfold blockedUpd
  split
  · split <;> rfl
  · rfl

theorem handleOpen_mem (s : PState) (line raw : String) (tx : Transaction)
    (h : tx ∈ (handleOpen s line raw).transactions) :
    tx ∈ s.transactions ∨ tx.amount.isSome = true := by
  unfold handleOpen at h
  split at h
  · exact Or.inl h
  · split at h
    · exact Or.inl h
    · split at h
      · exact Or.inl h
      · split at h
        · rcases finalizeTx_mem _ _ h with h' | h'
          · exact Or.inl h'
          · exact Or.inr h'
        · exact Or.inl h

theorem stepTx_mem (s : PState) (line raw : String) (tx : Transaction)
    (h : tx ∈ (stepTx s line raw).transactions) :
    tx ∈ s.transactions ∨ tx.amount.isSome = true := by
  unfold stepTx at h
  split at h
  · exact Or.inl h
  · split at h
    · rcases finalizeTx_mem _ _ h with h' | h'
      · exact Or.inl h'
      · exact Or.inr h'
    · exact handleOpen_mem _ _ _ _ h

theorem stepSections_mem (s : PState) (line raw : String) (tx : Transaction)
    (h : tx ∈ (stepSections s line raw).transactions) :
    tx ∈ s.transactions ∨ tx.amount.isSome = true := by
  unfold stepSections at h
  split at h
  · exact Or.inl h
  · split at h
    · exact Or.inl h
    · split at h
      · rw [blockedUpd_transactions] at h; exact Or.inl h
      · split at h
        · rcases stepTx_mem _ _ _ _ h with h' | h'
          · rw [blockedUpd_transactions] at h'; exact Or.inl h'
          · exact Or.inr h'
        · rw [blockedUpd_transactions] at h; exact Or.inl h

theorem step_mem (s : PState) (raw : String) (next : Option String) (tx : Transaction)
    (h : tx ∈ (step s raw next).transactions) :
    tx ∈ s.transactions ∨ tx.amount.isSome = true := by
  unfold step at h
  split at h
  · exact Or.inl h
  · rcases stepSections_mem _ _ _ _ h with h' | h'
    · exact Or.inl h'
    · exact Or.inr h'

theorem go_mem (ls : List String) (s : PState) (tx : Transaction)
    (h : tx ∈ (go s ls).transactions) :
    tx ∈ s.transactions ∨ tx.amount.isSome = true := by
  induction ls generalizing s with
  | nil => exact Or.inl h
  | cons raw rest ih =>
    rcases ih (step s raw rest.head?) h with h' | h'
    · exact step_mem _ _ _ _ h'
    · exact Or.inr h'

/-! ## Last-match characterization machinery for the scalar metadata fields -/

/-- Fire conditions and extracted values at the raw-line level (the skip
test applies to the raw line; the rules see the trimmed line plus the raw
lookahead). -/
def ownerFires (raw : String) (next : Option String) : Bool :=
  !skipLine raw && ownerClientFires0 (trimS raw)

def ownerValR (raw : String) (next : Option String) : String := ownerVal0 (trimS raw)

def clientValR (raw : String) (next : Option String) : String := clientVal0 (trimS raw)

def ibanFires (raw : String) (next : Option String) : Bool :=
  !skipLine raw && ibanFires0 (trimS raw)

def ibanValR (raw : String) (next : Option String) : String := ibanVal0 (trimS raw)

def currencyFires (raw : String) (next : Option String) : Bool :=
  !skipLine raw && currencyFires0 (trimS raw) next

def currencyValR (raw : String) (next : Option String) : String := currencyVal0 next

def finalBalanceFires (raw : String) (next : Option String) : Bool :=
  !skipLine raw && finalBalanceFires0 (trimS raw) next

def finalBalanceValR (raw : String) (next : Option String) : Option ℚ := finalBalanceVal0 next

def totalFires (raw : String) (next : Option String) : Bool :=
  !skipLine raw && totalFires0 (trimS raw) next

def totalValR (raw : String) (next : Option String) : Option ℚ × Option ℚ := totalVal0 next

def dailyFires (raw : String) (next : Option String) : Bool :=
  !skipLine raw && dailyFires0 (trimS raw) next

def dailyValR (raw : String) (next : Option String) : DailyTurnover :=
  dailyVal0 (trimS raw) next

/-- The value extracted by the *last* firing line of the list (each line is
paired with its one-line lookahead). -/
def lastExt {α : Type} (fires : String → Option String → Bool)
    (ext : String → Option String → α) : List String → Option α
  | [] => none
  | raw :: rest =>
    match lastExt fires ext rest with
    | some v => some v
    | none => if fires raw rest.head? then some (ext raw rest.head?) else none

/-- All values collected by firing lines, in encounter order. -/
def collectWith {α : Type} (fires : String → Option String → Bool)
    (ent : String → Option String → α) : List String → List α
  | [] => []
  | raw :: rest =>
    (if fires raw rest.head? then [ent raw rest.head?] else []) ++ collectWith fires ent rest

theorem go_lastExt {α : Type} (f : PState → α) (fires : String → Option String → Bool)
    (ext : String → Option String → α)
    (hstep : ∀ s raw next, f (step s raw next) = if fires raw next then ext raw next else f s)
    (ls : List String) (s : PState) :
    f (go s ls) = (lastExt fires ext ls).getD (f s) := by
  induction ls generalizing s with
  | nil => rfl
  | cons raw rest ih =>
    show f (go (step s raw rest.head?) rest) = _
    rw [ih]
    cases h : lastExt fires ext rest with
    | some v => simp [lastExt, h]
    | none =>
      rw [hstep]
      by_cases hf : fires raw rest.head? = true
      · simp [lastExt, h, hf]
      · simp only [Bool.not_eq_true] at hf
        simp [lastExt, h, hf]

theorem go_collect {α : Type} (f : PState → List α) (fires : String → Option String → Bool)
    (ent : String → Option String → α)
    (hstep : ∀ s raw next,
      f (step s raw next) = f s ++ (if fires raw next then [ent raw next] else []))
    (ls : List String) (s : PState) :
    f (go s ls) = f s ++ collectWith fires ent ls := by
  induction ls generalizing s with
  | nil => simp [go, collectWith]
  | cons raw rest ih =>
    show f (go (step s raw rest.head?) rest) = _
    rw [ih, hstep, collectWith, List.append_assoc]

/-- A skipped line (empty after trimming, or header/footer) leaves the whole
state unchanged. -/
theorem step_skip (s : PState) (raw : String) (next : Option String)
    (h : skipLine raw = true) : step s raw next = s := by
  unfold step
  simp [h]

theorem step_accountInfo_eq (s : PState) (raw : String) (next : Option String)
    (hs : skipLine raw = false) :
    ∃ b, (step s raw next).accountInfo =
      { applyScalars s.accountInfo (trimS raw) next with blockedAmounts := b } := by
  unfold step
  simp only [hs, Bool.false_eq_true, if_false]
  exact stepSections_accountInfo _ _ _

theorem step_owner (s : PState) (raw : String) (next : Option String) :
    (step s raw next).accountInfo.accountOwner =
      if ownerFires raw next then ownerValR raw next else s.accountInfo.accountOwner := by
  by_cases hs : skipLine raw = true
  · rw [step_skip _ _ _ hs]; simp [ownerFires, hs]
  · simp only [Bool.not_eq_true] at hs
    obtain ⟨b, hb⟩ := step_accountInfo_eq s raw next hs
    rw [hb]
    simp [applyScalars, ownerFires, ownerValR, hs]

theorem step_client (s : PState) (raw : String) (next : Option String) :
    (step s raw next).accountInfo.clientNumber =
      if ownerFires raw next then clientValR raw next else s.accountInfo.clientNumber := by
  by_cases hs : skipLine raw = true
  · rw [step_skip _ _ _ hs]; simp [ownerFires, hs]
  · simp only [Bool.not_eq_true] at hs
    obtain ⟨b, hb⟩ := step_accountInfo_eq s raw next hs
    rw [hb]
    simp [applyScalars, ownerFires, clientValR, hs]

theorem step_iban (s : PState) (raw : String) (next : Option String) :
    (step s raw next).accountInfo.iban =
      if ibanFires raw next then ibanValR raw next else s.accountInfo.iban := by
  by_cases hs : skipLine raw = true
  · rw [step_skip _ _ _ hs]; simp [ibanFires, hs]
  · simp only [Bool.not_eq_true] at hs
    obtain ⟨b, hb⟩ := step_accountInfo_eq s raw next hs
    rw [hb]
    simp [applyScalars, ibanFires, ibanValR, hs]

theorem step_currency (s : PState) (raw : String) (next : Option String) :
    (step s raw next).accountInfo.currency =
      if currencyFires raw next then currencyValR raw next else s.accountInfo.currency := by
  by_cases hs : skipLine raw = true
  · rw [step_skip _ _ _ hs]; simp [currencyFires, hs]
  · simp only [Bool.not_eq_true] at hs
    obtain ⟨b, hb⟩ := step_accountInfo_eq s raw next hs
    rw [hb]
    simp [applyScalars, currencyFires, currencyValR, hs]

theorem step_finalBalance (s : PState) (raw : String) (next : Option String) :
    (step s raw next).accountInfo.finalBalance =
      if finalBalanceFires raw next then finalBalanceValR raw next
      else s.accountInfo.finalBalance := by
  by_cases hs : skipLine raw = true
  · rw [step_skip _ _ _ hs]; simp [finalBalanceFires, hs]
  · simp only [Bool.not_eq_true] at hs
    obtain ⟨b, hb⟩ := step_accountInfo_eq s raw next hs
    rw [hb]
    simp [applyScalars, finalBalanceFires, finalBalanceValR, hs]

theorem step_total (s : PState) (raw : String) (next : Option String) :
    ((step s raw next).accountInfo.turnoverTotalDebit,
     (step s raw next).accountInfo.turnoverTotalCredit) =
      if totalFires raw next then totalValR raw next
      else (s.accountInfo.turnoverTotalDebit, s.accountInfo.turnoverTotalCredit) := by
  by_cases hs : skipLine raw = true
  · rw [step_skip _ _ _ hs]; simp [totalFires, hs]
  · simp only [Bool.not_eq_true] at hs
    obtain ⟨b, hb⟩ := step_accountInfo_eq s raw next hs
    rw [hb]
    by_cases hf : totalFires0 (trimS raw) next = true
    · simp [applyScalars, totalFires, totalValR, hs, hf]
    · simp [applyScalars, totalFires, totalValR, hs, hf]

theorem step_daily (s : PState) (raw : String) (next : Option String) :
    (step s raw next).accountInfo.turnoverDaily =
      s.accountInfo.turnoverDaily ++
        (if dailyFires raw next then [dailyValR raw next] else []) := by
  by_cases hs : skipLine raw = true
  · rw [step_skip _ _ _ hs]; simp [dailyFires, hs]
  · simp only [Bool.not_eq_true] at hs
    obtain ⟨b, hb⟩ := step_accountInfo_eq s raw next hs
    rw [hb]
    simp [applyScalars, dailyFires, dailyValR, hs]

/-- Effect of an amount-matching line on the open transaction: the amount
and type are (re)set from this line, whatever they were before. -/
theorem step_amount_line (s : PState) (raw : String) (next : Option String)
    (t : Transaction) (m : String)
    (hskip : skipLine raw = false)
    (hsume : containsS (trimS raw) "SUME BLOCATE" = false)
    (htd : containsS (trimS raw) "TOTAL DISPONIBIL" = false)
    (hblk : s.blockedAmountsSection = false)
    (hcont : matchContOrSold (trimS raw) = false)
    (hsec : s.inTransactionSection = true)
    (hdate : isDateLine (trimS raw) = false)
    (hds : descStartTest (trimS raw) = false)
    (htx : s.transaction = some t)
    (hamt : firstAmountStr (trimS raw) = some m) :
    (step s raw next).transaction = some { t with
        amount := parseAmountQ m
        type := some (if 6 ≤ leadingWS raw then TxType.income else TxType.expense) } := by
  unfold step stepSections blockedUpd stepTx handleOpen
  cases hcd : s.currentDate <;>
    simp [hskip, hsume, htd, hblk, hcont, hsec, hdate, hds, htx, hamt]

theorem extract_accountInfo (text : String) :
    (extractStatementData text).accountInfo = (go initState (splitLines text)).accountInfo := by
  unfold extractStatementData
  exact finalizeTx_accountInfo _

/-- A parser state with the transaction section enabled and an open
transaction, as used by the step-level witnesses. -/
def openTxState (t : Transaction) : PState :=
  { initState with inTransactionSection := true, transaction := some t }

/-! ## Claims about the statement parser -/

/-- C1 (counterexample): on the four input lines `12/05/2024`,
`Plata c/catre FURNIZOR X REF:12345`, six-space-indented `150.00`,
`RULAJ ZI`, the output of `extractStatementData` is *not* the single
expected transaction of the claim: no line matches `CONT`/`SOLD ANTERIOR`,
so the transaction section is never enabled and the output list is empty. -/
theorem c1_counterexample :
    (extractStatementData
        "12/05/2024\nPlata c/catre FURNIZOR X REF:12345\n      150.00\nRULAJ ZI").transactions ≠
      [{ date := "2024-05-12", description := "Plata c/catre FURNIZOR X",
         amount := some 150, type := some TxType.income,
         reference := some "12345", accountOwner := none }] := by
  decide

/-- C1 (amended): the four-line input of the claim produces an empty
transaction list, because no line enables the transaction section; with a
`SOLD ANTERIOR` line prepended, exactly one transaction is produced, whose
description still contains the `REF:12345` text (the description-start line
is not scanned for `REF:`) and whose reference is null. -/
theorem c1_thm :
    (extractStatementData
        "12/05/2024\nPlata c/catre FURNIZOR X REF:12345\n      150.00\nRULAJ ZI").transactions
      = [] ∧
    (extractStatementData
        "SOLD ANTERIOR\n12/05/2024\nPlata c/catre FURNIZOR X REF:12345\n      150.00\nRULAJ ZI").transactions
      = [{ date := "2024-05-12", description := "Plata c/catre FURNIZOR X REF:12345",
           amount := some 150, type := some TxType.income,
           reference := none, accountOwner := none }] := by
  exact ⟨by decide, by decide⟩

/-- C2 (counterexample): with two amount-matching lines inside one open
transaction (`100.00`, then six-space-indented `200.00`), the recorded
amount is 200 (and the type income, from the *last* amount line), not the
100 of the first matching line as the claim states. -/
theorem c2_counterexample :
    (extractStatementData
        "SOLD ANTERIOR\n01/01/2024\nPlata test\n100.00\n      200.00\nRULAJ ZI").transactions.map
      Transaction.amount = [some 200] ∧
    parseAmountQ "100.00" = some 100 ∧ (some (200 : ℚ) ≠ some (100 : ℚ)) := by
  refine ⟨by decide, by decide, by decide⟩

/-- C2 (amended): every line matching the amount pattern while a transaction
is open (re)sets the recorded amount to the value parsed from *that* line —
the last such line before finalization wins, regardless of the previously
stored amount. -/
theorem c2_thm (s : PState) (raw : String) (next : Option String)
    (t : Transaction) (m : String)
    (hskip : skipLine raw = false)
    (hsume : containsS (trimS raw) "SUME BLOCATE" = false)
    (htd : containsS (trimS raw) "TOTAL DISPONIBIL" = false)
    (hblk : s.blockedAmountsSection = false)
    (hcont : matchContOrSold (trimS raw) = false)
    (hdate : isDateLine (trimS raw) = false)
    (hds : descStartTest (trimS raw) = false)
    (hsec : s.inTransactionSection = true)
    (htx : s.transaction = some t)
    (hamt : firstAmountStr (trimS raw) = some m) :
    (step s raw next).transaction.map Transaction.amount = some (parseAmountQ m) := by
  rw [step_amount_line s raw next t m hskip hsume htd hblk hcont hsec hdate hds htx hamt]
  rfl

def c2OpenTx : Transaction :=
  { date := "01/01/2024", description := "Plata test ", amount := some 100
    type := some TxType.expense, reference := none, accountOwner := none }

/-- C2 (witness): the amended theorem applied to a state whose open
transaction already carries amount 100, on the line `      200.00`. -/
theorem c2_witness :
    (step (openTxState c2OpenTx) "      200.00" none).transaction.map Transaction.amount =
      some (parseAmountQ "200.00") :=
  c2_thm (openTxState c2OpenTx) "      200.00" none c2OpenTx "200.00"
    (by decide) (by decide) (by decide) (by decide) (by decide) (by decide)
    (by decide) (by decide) (by decide) (by decide)

/-- C3 (counterexample): the transaction opened by `Plata A` reaches the
end-of-day marker `RULAJ ZI` without any amount line, so by the claim it
must not appear in the output; but `finalizeTransaction` does not discard
it (it only clears the transaction when the amount is non-null), so the
later line `      50.00` supplies an amount and the transaction is emitted
at end of input. -/
theorem c3_counterexample :
    (extractStatementData "SOLD ANTERIOR\n01/01/2024\nPlata A\nRULAJ ZI\n      50.00").transactions =
      [{ date := "2024-01-01", description := "Plata A", amount := some 50,
         type := some TxType.income, reference := none, accountOwner := none }] := by
  decide

/-- C3 (amended): every transaction in the output list of
`extractStatementData` has a non-null amount (a transaction is pushed only
when its amount is set); however an amount-less transaction is *not*
discarded at an end-of-day marker — it stays open and may be emitted later,
as the counterexample shows. -/
theorem c3_thm (text : String) :
    ∀ tx ∈ (extractStatementData text).transactions, tx.amount.isSome = true := by
  intro tx h
  unfold extractStatementData at h
  rcases finalizeTx_mem _ _ h with h' | h'
  · rcases go_mem _ _ _ h' with h'' | h''
    · simp [initState] at h''
    · exact h''
  · exact h'

def c3WitnessTx : Transaction :=
  { date := "2024-01-01", description := "Plata A", amount := some 1
    type := some TxType.expense, reference := none, accountOwner := none }

/-- C3 (witness): the invariant applied to a concrete input and the
transaction it produces. -/
theorem c3_witness : (Transaction.amount c3WitnessTx).isSome = true :=
  c3_thm "SOLD ANTERIOR\n01/01/2024\nPlata A\n1.00\nRULAJ ZI" c3WitnessTx (by decide)

/-- C4: when an amount-matching line is consumed by an open transaction, the
type recorded is income iff the untrimmed source line has at least 6 leading
whitespace characters. -/
theorem c4_thm (s : PState) (raw : String) (next : Option String)
    (t : Transaction) (m : String)
    (hskip : skipLine raw = false)
    (hsume : containsS (trimS raw) "SUME BLOCATE" = false)
    (htd : containsS (trimS raw) "TOTAL DISPONIBIL" = false)
    (hblk : s.blockedAmountsSection = false)
    (hcont : matchContOrSold (trimS raw) = false)
    (hdate : isDateLine (trimS raw) = false)
    (hds : descStartTest (trimS raw) = false)
    (hsec : s.inTransactionSection = true)
    (htx : s.transaction = some t)
    (hamt : firstAmountStr (trimS raw) = some m) :
    ((step s raw next).transaction.bind Transaction.type = some TxType.income) ↔
      6 ≤ leadingWS raw := by
  rw [step_amount_line s raw next t m hskip hsume htd hblk hcont hsec hdate hds htx hamt]
  by_cases h : 6 ≤ leadingWS raw <;> simp [h]

def c4OpenTx : Transaction :=
  { date := "01/01/2024", description := "Plata x ", amount := none
    type := none, reference := none, accountOwner := none }

/-- C4 (witness): exactly 6 leading spaces classify as income, exactly 5 as
expense. -/
theorem c4_witness :
    ((step (openTxState c4OpenTx) "      150.00" none).transaction.bind Transaction.type =
        some TxType.income) ∧
    ¬ ((step (openTxState c4OpenTx) "     150.00" none).transaction.bind Transaction.type =
        some TxType.income) := by
  refine ⟨?_, ?_⟩
  · exact (c4_thm (openTxState c4OpenTx) "      150.00" none c4OpenTx "150.00"
      (by decide) (by decide) (by decide) (by decide) (by decide) (by decide)
      (by decide) (by decide) (by decide) (by decide)).mpr (by decide)
  · intro h
    exact absurd ((c4_thm (openTxState c4OpenTx) "     150.00" none c4OpenTx "150.00"
      (by decide) (by decide) (by decide) (by decide) (by decide) (by decide)
      (by decide) (by decide) (by decide) (by decide)).mp h) (by decide)

/-- C5 (counterexample): the header line `BANCA TRANSILVANIA` read through
the one-line lookahead after a `Valuta` label line *does* contribute to
`accountInfo.currency` (which becomes `BAN`), contradicting the claim that
header/footer lines contribute to no field even as lookahead value lines. -/
theorem c5_counterexample :
    (extractStatementData "Valuta\nBANCA TRANSILVANIA").accountInfo.currency = "BAN" ∧
    isHeaderOrFooterLine "BANCA TRANSILVANIA" = true := by
  exact ⟨by decide, by decide⟩

/-- C5 (amended): an empty or header/footer line never fires any rule when
it is the *current* line — the whole state is unchanged; it can however
still contribute as the value line of a one-line lookahead, as the
counterexample shows. -/
theorem c5_thm (s : PState) (raw : String) (next : Option String)
    (h : trimS raw = "" ∨ isHeaderOrFooterLine (trimS raw) = true) :
    step s raw next = s := by
  apply step_skip
  unfold skipLine
  rcases h with h | h <;> simp [h]

/-- C5 (witness): the skip theorem applied to the header line
`BANCA TRANSILVANIA`. -/
theorem c5_witness : step initState "BANCA TRANSILVANIA" none = initState :=
  c5_thm initState "BANCA TRANSILVANIA" none (Or.inr (by decide))

/-- C9 (counterexample): the single line `01/01/2024RULAJ ZI` is not
skipped and matches the daily-turnover marker pattern, yet no entry is
appended to `turnover.daily`, because there is no following line to supply
the values (the rule also requires the next line's trimmed length to be at
least 5). -/
theorem c9_counterexample :
    dailySearch "01/01/2024RULAJ ZI" = some "01/01/2024" ∧
    skipLine "01/01/2024RULAJ ZI" = false ∧
    (extractStatementData "01/01/2024RULAJ ZI").accountInfo.turnoverDaily = [] := by
  refine ⟨by decide, by decide, by decide⟩

/-- C9 (amended): `turnover.daily` is exactly the ordered list of entries
collected from the non-skipped marker lines that are followed by a further
line whose trimmed content has length at least 5; each such line appends
exactly one entry carrying its date, in encounter order. -/
theorem c9_thm (text : String) :
    (extractStatementData text).accountInfo.turnoverDaily =
      collectWith dailyFires dailyValR (splitLines text) := by
  rw [extract_accountInfo]
  rw [go_collect (fun s => s.accountInfo.turnoverDaily) dailyFires dailyValR step_daily]
  rfl

/-- C10: each scalar account-metadata field of the result equals the value
extracted from the *last* line on which its rule fires (with its one-line
lookahead), the initial value if no line fires: every later match
overwrites the earlier one. -/
theorem c10_thm (text : String) :
    (extractStatementData text).accountInfo.accountOwner =
      (lastExt ownerFires ownerValR (splitLines text)).getD "" ∧
    (extractStatementData text).accountInfo.clientNumber =
      (lastExt ownerFires clientValR (splitLines text)).getD "" ∧
    (extractStatementData text).accountInfo.iban =
      (lastExt ibanFires ibanValR (splitLines text)).getD "" ∧
    (extractStatementData text).accountInfo.currency =
      (lastExt currencyFires currencyValR (splitLines text)).getD "" ∧
    (extractStatementData text).accountInfo.finalBalance =
      (lastExt finalBalanceFires finalBalanceValR (splitLines text)).getD none ∧
    ((extractStatementData text).accountInfo.turnoverTotalDebit,
     (extractStatementData text).accountInfo.turnoverTotalCredit) =
      (lastExt totalFires totalValR (splitLines text)).getD (none, none) := by
  refine ⟨?_, ?_, ?_, ?_, ?_, ?_⟩
  · rw [extract_accountInfo]
    exact go_lastExt (fun s => s.accountInfo.accountOwner) ownerFires ownerValR step_owner _ _
  · rw [extract_accountInfo]
    exact go_lastExt (fun s => s.accountInfo.clientNumber) ownerFires clientValR step_client _ _
  · rw [extract_accountInfo]
    exact go_lastExt (fun s => s.accountInfo.iban) ibanFires ibanValR step_iban _ _
  · rw [extract_accountInfo]
    exact go_lastExt (fun s => s.accountInfo.currency) currencyFires currencyValR step_currency _ _
  · rw [extract_accountInfo]
    exact go_lastExt (fun s => s.accountInfo.finalBalance) finalBalanceFires finalBalanceValR
      step_finalBalance _ _
  · rw [extract_accountInfo]
    exact go_lastExt
      (fun s => (s.accountInfo.turnoverTotalDebit, s.accountInfo.turnoverTotalCredit))
      totalFires totalValR step_total _ _

/-! ## Lemmas about the MOD-97 arithmetic -/

theorem digitsToNat_cons_general (c : Char) (cs : List Char) (a : Nat) :
    List.foldl (fun a c => a * 10 + (c.toNat - 48)) a (c :: cs) =
      List.foldl (fun a c => a * 10 + (c.toNat - 48)) (a * 10 + (c.toNat - 48)) cs := rfl

theorem digitsToNat_general (l : List Char) :
    ∀ a : Nat, List.foldl (fun a c => a * 10 + (c.toNat - 48)) a l =
      a * 10 ^ l.length + List.foldl (fun a c => a * 10 + (c.toNat - 48)) 0 l := by
  induction l with
  | nil => intro a; simp
  | cons c cs ih =>
    intro a
    rw [digitsToNat_cons_general, digitsToNat_cons_general, ih (a * 10 + (c.toNat - 48)),
        ih (0 * 10 + (c.toNat - 48)), List.length_cons, pow_succ]
    ring

theorem digitsToNat_append (l1 l2 : List Char) :
    digitsToNat (l1 ++ l2) = digitsToNat l1 * 10 ^ l2.length + digitsToNat l2 := by
  unfold digitsToNat
  rw [List.foldl_append, digitsToNat_general l2]

theorem bigIntMod97Aux_digits (l : List Char) :
    ∀ r : Nat, (∀ c ∈ l, isDigit09 c = true) →
      bigIntMod97Aux (r % 97) l =
        some (List.foldl (fun a c => a * 10 + (c.toNat - 48)) r l % 97) := by
  induction l with
  | nil => intro r h; rfl
  | cons c cs ih =>
    intro r h
    have hc : isDigit09 c = true := h c (List.mem_cons_self c cs)
    show (if isDigit09 c then bigIntMod97Aux ((r % 97 * 10 + (c.toNat - 48)) % 97) cs
          else none) = _
    rw [hc]
    simp only [if_true]
    have harith : (r % 97 * 10 + (c.toNat - 48)) % 97 = (r * 10 + (c.toNat - 48)) % 97 := by
      omega
    rw [harith]
    exact ih (r * 10 + (c.toNat - 48)) (fun d hd => h d (List.mem_cons_of_mem c hd))

theorem bigIntMod97Aux_zero (l : List Char) (h : ∀ c ∈ l, isDigit09 c = true) :
    bigIntMod97Aux 0 l = some (digitsToNat l % 97) := by
  have := bigIntMod97Aux_digits l 0 h
  simpa [digitsToNat] using this

theorem convertLettersToNumbers_append (l1 l2 : List Char) :
    convertLettersToNumbers (l1 ++ l2) =
      convertLettersToNumbers l1 ++ convertLettersToNumbers l2 := by
  induction l1 with
  | nil => rfl
  | cons c cs ih => simp [convertLettersToNumbers, ih]

theorem digitChar_digit (k : Nat) (h : k < 10) : isDigit09 (Nat.digitChar k) = true := by
  interval_cases k <;> decide

theorem convChar_digits (c : Char) (h : isUpperAZ c = true ∨ isDigit09 c = true) :
    ∀ d ∈ convChar c, isDigit09 d = true := by
  rcases h with h | h
  · intro d hd
    unfold convChar at hd
    rw [h] at hd
    simp only [if_true, List.mem_cons, List.mem_singleton, List.not_mem_nil, or_false] at hd
    rcases hd with hd | hd
    · subst hd
      exact digitChar_digit _ (Nat.div_lt_of_lt_mul (by
        have : c.toNat ≤ 90 := by
          unfold isUpperAZ at h
          simp only [Bool.and_eq_true, decide_eq_true_eq] at h
          exact h.2
        omega))
    · subst hd
      exact digitChar_digit _ (Nat.mod_lt _ (by norm_num))
  · intro d hd
    unfold convChar at hd
    have hu : isUpperAZ c = false := by
      unfold isUpperAZ
      unfold isDigit09 at h
      simp only [Bool.and_eq_true, decide_eq_true_eq] at h
      simp only [Bool.and_eq_false_iff, decide_eq_false_iff_not]
      left; omega
    rw [hu] at hd
    simp only [Bool.false_eq_true, if_false, List.mem_singleton] at hd
    subst hd
    exact h

theorem conv_all_digits (l : List Char)
    (h : ∀ c ∈ l, isUpperAZ c = true ∨ isDigit09 c = true) :
    ∀ d ∈ convertLettersToNumbers l, isDigit09 d = true := by
  induction l with
  | nil => intro d hd; simp [convertLettersToNumbers] at hd
  | cons c cs ih =>
    intro d hd
    unfold convertLettersToNumbers at hd
    rw [List.mem_append] at hd
    rcases hd with hd | hd
    · exact convChar_digits c (h c (List.mem_cons_self c cs)) d hd
    · exact ih (fun x hx => h x (List.mem_cons_of_mem c hx)) d hd

theorem conv_digits_id (l : List Char) (h : ∀ c ∈ l, isDigit09 c = true) :
    convertLettersToNumbers l = l := by
  induction l with
  | nil => rfl
  | cons c cs ih =>
    have hc := h c (List.mem_cons_self c cs)
    have hu : isUpperAZ c = false := by
      unfold isUpperAZ
      unfold isDigit09 at hc
      simp only [Bool.and_eq_true, decide_eq_true_eq] at hc
      simp only [Bool.and_eq_false_iff, decide_eq_false_iff_not]
      left; omega
    unfold convertLettersToNumbers convChar
    rw [hu]
    simp only [Bool.false_eq_true, if_false, List.singleton_append]
    rw [ih (fun x hx => h x (List.mem_cons_of_mem c hx))]

theorem padStart2_spec :
    ∀ r : Nat, r < 97 →
      (padStart2 (98 - r)).length = 2 ∧ digitsToNat (padStart2 (98 - r)) = 98 - r ∧
        ∀ c ∈ padStart2 (98 - r), isDigit09 c = true := by
  decide

theorem jsIsWS_false_of_alnum (c : Char) (h : isUpperAZ c = true ∨ isDigit09 c = true) :
    jsIsWS c = false := by
  have hb : 48 ≤ c.toNat := by
    rcases h with h | h <;>
      (simp only [isUpperAZ, isDigit09, Bool.and_eq_true, decide_eq_true_eq] at h; omega)
  unfold jsIsWS
  have hne : ∀ d : Char, d.toNat < 48 → (c == d) = false := by
    intro d hd
    apply beq_eq_false_iff_ne.mpr
    intro he
    rw [he] at hb
    omega
  rw [hne ' ' (by decide), hne '\t' (by decide), hne '\n' (by decide), hne '\r' (by decide),
      hne '\x0b' (by decide), hne '\x0c' (by decide)]
  rfl

theorem hyphen_false_of_alnum (c : Char) (h : isUpperAZ c = true ∨ isDigit09 c = true) :
    (c == '-') = false := by
  have hb : 48 ≤ c.toNat := by
    rcases h with h | h <;>
      (simp only [isUpperAZ, isDigit09, Bool.and_eq_true, decide_eq_true_eq] at h; omega)
  apply beq_eq_false_iff_ne.mpr
  intro he
  rw [he] at hb
  simp at hb

theorem jsToUpper_id_of_alnum (c : Char) (h : isUpperAZ c = true ∨ isDigit09 c = true) :
    jsToUpper c = c := by
  have hb : c.toNat ≤ 90 := by
    rcases h with h | h <;>
      (simp only [isUpperAZ, isDigit09, Bool.and_eq_true, decide_eq_true_eq] at h; omega)
  unfold jsToUpper
  rw [if_neg]
  omega

theorem cleanIbanL_id (l : List Char)
    (h : ∀ c ∈ l, isUpperAZ c = true ∨ isDigit09 c = true) :
    cleanIbanL l = l := by
  induction l with
  | nil => rfl
  | cons c cs ih =>
    have hc := h c (List.mem_cons_self c cs)
    unfold cleanIbanL
    rw [List.filter_cons]
    rw [jsIsWS_false_of_alnum c hc, hyphen_false_of_alnum c hc]
    simp only [Bool.or_self, Bool.not_false, if_true, List.map_cons]
    rw [jsToUpper_id_of_alnum c hc]
    have := ih (fun x hx => h x (List.mem_cons_of_mem c hx))
    unfold cleanIbanL at this
    rw [this]

/-- C6: the MOD-97 round trip.  For Romanian-shaped components (2 uppercase
letters, 4 uppercase letters, 16 alphanumeric characters), the IBAN
assembled from the computed check digits passes the checksum validation. -/
theorem c6_thm (country bank account : String)
    (hclen : country.data.length = 2)
    (hcA : ∀ c ∈ country.data, isUpperAZ c = true)
    (hblen : bank.data.length = 4)
    (hbA : ∀ c ∈ bank.data, isUpperAZ c = true)
    (halen : account.data.length = 16)
    (haA : ∀ c ∈ account.data, isUpperAZ c = true ∨ isDigit09 c = true) :
    ∃ dd, calculateIbanCheckDigits country bank account = some dd ∧
      validateIbanChecksum (country ++ dd ++ bank ++ account) = some true := by
  have h00dig : ∀ c ∈ ['0', '0'], isDigit09 c = true := by decide
  have hcoreA : ∀ c ∈ bank.data ++ account.data ++ country.data,
      isUpperAZ c = true ∨ isDigit09 c = true := by
    intro c hc
    rcases List.mem_append.mp hc with hc | hc
    · rcases List.mem_append.mp hc with hc | hc
      · exact Or.inl (hbA c hc)
      · exact haA c hc
    · exact Or.inl (hcA c hc)
  have hZdig : ∀ d ∈ convertLettersToNumbers (bank.data ++ account.data ++ country.data),
      isDigit09 d = true := conv_all_digits _ hcoreA
  have h00 : digitsToNat ['0', '0'] = 0 := by decide
  have hlen4 : (country.data ++ ['0', '0']).length = 4 := by simp [hclen]
  have hre0 : (country.data ++ ['0', '0'] ++ bank.data ++ account.data).drop 4 ++
        (country.data ++ ['0', '0'] ++ bank.data ++ account.data).take 4 =
      bank.data ++ account.data ++ country.data ++ ['0', '0'] := by
    have h1 : country.data ++ ['0', '0'] ++ bank.data ++ account.data =
        (country.data ++ ['0', '0']) ++ (bank.data ++ account.data) := by
      simp [List.append_assoc]
    rw [h1, List.drop_left' hlen4, List.take_left' hlen4]
    simp [List.append_assoc]
  have hconv0 : convertLettersToNumbers
        (bank.data ++ account.data ++ country.data ++ ['0', '0']) =
      convertLettersToNumbers (bank.data ++ account.data ++ country.data) ++ ['0', '0'] := by
    rw [convertLettersToNumbers_append, conv_digits_id ['0', '0'] h00dig]
  have haux0 : bigIntMod97Aux 0
        (convertLettersToNumbers (bank.data ++ account.data ++ country.data) ++ ['0', '0']) =
      some ((digitsToNat (convertLettersToNumbers
        (bank.data ++ account.data ++ country.data)) * 100) % 97) := by
    rw [bigIntMod97Aux_zero _ (by
      intro c hc
      rcases List.mem_append.mp hc with hc | hc
      · exact hZdig c hc
      · exact h00dig c hc)]
    rw [digitsToNat_append, h00]
    norm_num
  have hcalc : calculateIbanCheckDigits country bank account =
      some (⟨padStart2 (98 - (digitsToNat (convertLettersToNumbers
        (bank.data ++ account.data ++ country.data)) * 100) % 97)⟩ : String) := by
    show Option.map (fun r => (⟨padStart2 (98 - r)⟩ : String))
        (bigIntMod97Aux 0 (convertLettersToNumbers
          ((country.data ++ ['0', '0'] ++ bank.data ++ account.data).drop 4 ++
           (country.data ++ ['0', '0'] ++ bank.data ++ account.data).take 4))) = _
    rw [hre0, hconv0, haux0]
    rfl
  have hr : (digitsToNat (convertLettersToNumbers
      (bank.data ++ account.data ++ country.data)) * 100) % 97 < 97 :=
    Nat.mod_lt _ (by norm_num)
  obtain ⟨hD2, hDval, hDdig⟩ := padStart2_spec _ hr
  refine ⟨_, hcalc, ?_⟩
  have hdata : (country ++ (⟨padStart2 (98 - (digitsToNat (convertLettersToNumbers
        (bank.data ++ account.data ++ country.data)) * 100) % 97)⟩ : String) ++ bank ++
        account).data =
      country.data ++ padStart2 (98 - (digitsToNat (convertLettersToNumbers
        (bank.data ++ account.data ++ country.data)) * 100) % 97) ++ bank.data ++
        account.data := by
    simp [String.data_append]
  have halnum : ∀ c ∈ country.data ++ padStart2 (98 - (digitsToNat (convertLettersToNumbers
        (bank.data ++ account.data ++ country.data)) * 100) % 97) ++ bank.data ++
        account.data, isUpperAZ c = true ∨ isDigit09 c = true := by
    intro c hc
    rcases List.mem_append.mp hc with hc | hc
    · rcases List.mem_append.mp hc with hc | hc
      · rcases List.mem_append.mp hc with hc | hc
        · exact Or.inl (hcA c hc)
        · exact Or.inr (hDdig c hc)
      · exact Or.inl (hbA c hc)
    · exact haA c hc
  have hlen4b : (country.data ++ padStart2 (98 - (digitsToNat (convertLettersToNumbers
      (bank.data ++ account.data ++ country.data)) * 100) % 97)).length = 4 := by
    rw [List.length_append, hclen, hD2]
  have hre1 : (country.data ++ padStart2 (98 - (digitsToNat (convertLettersToNumbers
        (bank.data ++ account.data ++ country.data)) * 100) % 97) ++ bank.data ++
        account.data).drop 4 ++
      (country.data ++ padStart2 (98 - (digitsToNat (convertLettersToNumbers
        (bank.data ++ account.data ++ country.data)) * 100) % 97) ++ bank.data ++
        account.data).take 4 =
      bank.data ++ account.data ++ country.data ++
        padStart2 (98 - (digitsToNat (convertLettersToNumbers
          (bank.data ++ account.data ++ country.data)) * 100) % 97) := by
    have h1 : country.data ++ padStart2 (98 - (digitsToNat (convertLettersToNumbers
          (bank.data ++ account.data ++ country.data)) * 100) % 97) ++ bank.data ++
          account.data =
        (country.data ++ padStart2 (98 - (digitsToNat (convertLettersToNumbers
          (bank.data ++ account.data ++ country.data)) * 100) % 97)) ++
          (bank.data ++ account.data) := by
      simp [List.append_assoc]
    rw [h1, List.drop_left' hlen4b, List.take_left' hlen4b]
    simp [List.append_assoc]
  have hconv1 : convertLettersToNumbers
        (bank.data ++ account.data ++ country.data ++
          padStart2 (98 - (digitsToNat (convertLettersToNumbers
            (bank.data ++ account.data ++ country.data)) * 100) % 97)) =
      convertLettersToNumbers (bank.data ++ account.data ++ country.data) ++
        padStart2 (98 - (digitsToNat (convertLettersToNumbers
          (bank.data ++ account.data ++ country.data)) * 100) % 97) := by
    rw [convertLettersToNumbers_append, conv_digits_id _ hDdig]
  show Option.map (fun r => r == 1)
      (bigIntMod97Aux 0 (convertLettersToNumbers
        ((cleanIbanL (country ++ (⟨padStart2 (98 - (digitsToNat (convertLettersToNumbers
            (bank.data ++ account.data ++ country.data)) * 100) % 97)⟩ : String) ++ bank ++
            account).data).drop 4 ++
         (cleanIbanL (country ++ (⟨padStart2 (98 - (digitsToNat (convertLettersToNumbers
            (bank.data ++ account.data ++ country.data)) * 100) % 97)⟩ : String) ++ bank ++
            account).data).take 4))) = some true
  rw [hdata, cleanIbanL_id _ halnum, hre1, hconv1]
  rw [bigIntMod97Aux_zero _ (by
    intro c hc
    rcases List.mem_append.mp hc with hc | hc
    · exact hZdig c hc
    · exact hDdig c hc)]
  rw [digitsToNat_append, hD2, hDval]
  have hmod : (digitsToNat (convertLettersToNumbers
        (bank.data ++ account.data ++ country.data)) * 10 ^ 2 +
      (98 - (digitsToNat (convertLettersToNumbers
        (bank.data ++ account.data ++ country.data)) * 100) % 97)) % 97 = 1 := by
    have h2 : (10 : Nat) ^ 2 = 100 := by norm_num
    rw [h2]
    omega
  rw [hmod]
  rfl

/-- C6 (witness): the round trip at `RO`/`BTRL`/`0075938400001234`. -/
theorem c6_witness :
    ∃ dd, calculateIbanCheckDigits "RO" "BTRL" "0075938400001234" = some dd ∧
      validateIbanChecksum ("RO" ++ dd ++ "BTRL" ++ "0075938400001234") = some true :=
  c6_thm "RO" "BTRL" "0075938400001234" (by decide) (by decide) (by decide)
    (by decide) (by decide) (by decide)

/-- C7 (counterexample): an input string that is not 24 characters long
(because of interior spaces) is *not* rejected with the length error — the
checks run on the cleaned string, so this 29-character input is accepted as
structurally valid. -/
theorem c7_counterexample :
    validateRomanianIbanStructure "RO49 AAAA 1B31 0075 9384 0000" =
      { isValid := true, error := none } ∧
    "RO49 AAAA 1B31 0075 9384 0000".length ≠ 24 := by
  exact ⟨by decide, by decide⟩

/-- C7 (amended): the structural checks are evaluated on the *cleaned*
input (whitespace/hyphens stripped, uppercased), in the stated order —
length 24, `RO` prefix, two check digits, four bank-code letters, sixteen
alphanumeric account characters — short-circuiting with the distinct
message of the first failing check. -/
theorem c7_thm (iban : String) :
    ((cleanIbanL iban.data).length ≠ 24 →
      validateRomanianIbanStructure iban =
        { isValid := false, error := some (lengthErrMsg (cleanIbanL iban.data).length) }) ∧
    ((cleanIbanL iban.data).length = 24 →
      startsWithL (cleanIbanL iban.data) ['R', 'O'] = false →
      validateRomanianIbanStructure iban =
        { isValid := false, error := some "IBAN must start with RO for Romanian accounts" }) ∧
    ((cleanIbanL iban.data).length = 24 →
      startsWithL (cleanIbanL iban.data) ['R', 'O'] = true →
      regexTwoDigits (((cleanIbanL iban.data).drop 2).take 2) = false →
      validateRomanianIbanStructure iban =
        { isValid := false, error := some "Check digits (positions 3-4) must be numeric" }) ∧
    ((cleanIbanL iban.data).length = 24 →
      startsWithL (cleanIbanL iban.data) ['R', 'O'] = true →
      regexTwoDigits (((cleanIbanL iban.data).drop 2).take 2) = true →
      regexFourUpper (((cleanIbanL iban.data).drop 4).take 4) = false →
      validateRomanianIbanStructure iban =
        { isValid := false
          error := some "Bank code (positions 5-8) must be 4 uppercase letters" }) ∧
    ((cleanIbanL iban.data).length = 24 →
      startsWithL (cleanIbanL iban.data) ['R', 'O'] = true →
      regexTwoDigits (((cleanIbanL iban.data).drop 2).take 2) = true →
      regexFourUpper (((cleanIbanL iban.data).drop 4).take 4) = true →
      regexAlnum16 ((cleanIbanL iban.data).drop 8) = false →
      validateRomanianIbanStructure iban =
        { isValid := false
          error := some "Account identifier must be 16 alphanumeric characters" }) ∧
    ((cleanIbanL iban.data).length = 24 →
      startsWithL (cleanIbanL iban.data) ['R', 'O'] = true →
      regexTwoDigits (((cleanIbanL iban.data).drop 2).take 2) = true →
      regexFourUpper (((cleanIbanL iban.data).drop 4).take 4) = true →
      regexAlnum16 ((cleanIbanL iban.data).drop 8) = true →
      validateRomanianIbanStructure iban = { isValid := true, error := none }) := by
  unfold validateRomanianIbanStructure
  refine ⟨?_, ?_, ?_, ?_, ?_, ?_⟩
  · intro h1
    simp [h1]
  · intro h1 h2
    simp [h1, h2]
  · intro h1 h2 h3
    simp [h1, h2, h3]
  · intro h1 h2 h3 h4
    simp [h1, h2, h3, h4]
  · intro h1 h2 h3 h4 h5
    simp [h1, h2, h3, h4, h5]
  · intro h1 h2 h3 h4 h5
    simp [h1, h2, h3, h4, h5]

/-- C7 (witness): one concrete input per branch of the short-circuit. -/
theorem c7_witness :
    validateRomanianIbanStructure "RO1" =
      { isValid := false, error := some (lengthErrMsg 3) } ∧
    validateRomanianIbanStructure "AB49AAAA1B31007593840000" =
      { isValid := false, error := some "IBAN must start with RO for Romanian accounts" } ∧
    validateRomanianIbanStructure "ROXXAAAA1B31007593840000" =
      { isValid := false, error := some "Check digits (positions 3-4) must be numeric" } ∧
    validateRomanianIbanStructure "RO49A1AA1B31007593840000" =
      { isValid := false
        error := some "Bank code (positions 5-8) must be 4 uppercase letters" } ∧
    validateRomanianIbanStructure "RO49AAAA1!31007593840000" =
      { isValid := false
        error := some "Account identifier must be 16 alphanumeric characters" } ∧
    validateRomanianIbanStructure "RO49AAAA1B31007593840000" =
      { isValid := true, error := none } :=
  ⟨(c7_thm "RO1").1 (by decide),
   (c7_thm "AB49AAAA1B31007593840000").2.1 (by decide) (by decide),
   (c7_thm "ROXXAAAA1B31007593840000").2.2.1 (by decide) (by decide) (by decide),
   (c7_thm "RO49A1AA1B31007593840000").2.2.2.1 (by decide) (by decide) (by decide)
     (by decide),
   (c7_thm "RO49AAAA1!31007593840000").2.2.2.2.1 (by decide) (by decide) (by decide)
     (by decide) (by decide),
   (c7_thm "RO49AAAA1B31007593840000").2.2.2.2.2 (by decide) (by decide) (by decide)
     (by decide) (by decide)⟩

theorem bigIntMod97Aux_isSome (l : List Char) :
    ∀ r : Nat, (∀ c ∈ l, isDigit09 c = true) → (bigIntMod97Aux r l).isSome = true := by
  induction l with
  | nil => intro r h; rfl
  | cons c cs ih =>
    intro r h
    show (if isDigit09 c then bigIntMod97Aux ((r * 10 + (c.toNat - 48)) % 97) cs
          else none).isSome = true
    rw [h c (List.mem_cons_self c cs)]
    simp only [if_true]
    exact ih _ (fun d hd => h d (List.mem_cons_of_mem c hd))

theorem startsWithL_two {a b : Char} {l : List Char}
    (h : startsWithL l [a, b] = true) : ∃ t, l = a :: b :: t := by
  match l with
  | [] => simp [startsWithL] at h
  | [c] => simp [startsWithL] at h
  | c :: d :: t =>
    simp only [startsWithL, Bool.and_eq_true, beq_iff_eq] at h
    exact ⟨t, by rw [h.1, h.2.1]⟩

/-- A structurally valid (cleaned) IBAN consists only of uppercase letters
and digits. -/
theorem structValid_chars (iban : String)
    (h : (validateRomanianIbanStructure iban).isValid = true) :
    ∀ c ∈ cleanIbanL iban.data, isUpperAZ c = true ∨ isDigit09 c = true := by
  unfold validateRomanianIbanStructure at h
  split_ifs at h with h1 h2 h3 h4 h5
  · simp only [Bool.not_eq_true, Bool.not_eq_false'] at h2 h3 h4 h5
    intro c hc
    obtain ⟨t, ht⟩ := startsWithL_two h2
    rw [← List.take_append_drop 2 (cleanIbanL iban.data)] at hc
    rcases List.mem_append.mp hc with hA | hB
    · rw [ht] at hA
      simp only [List.take, List.mem_cons, List.not_mem_nil, or_false] at hA
      rcases hA with hA | hA <;> (subst hA; left; decide)
    · rw [← List.take_append_drop 2 ((cleanIbanL iban.data).drop 2)] at hB
      rcases List.mem_append.mp hB with hB | hB
      · unfold regexTwoDigits at h3
        rw [Bool.and_eq_true] at h3
        exact Or.inr (List.all_eq_true.mp h3.2 c hB)
      · rw [List.drop_drop, show (2 : Nat) + 2 = 4 from rfl] at hB
        rw [← List.take_append_drop 4 ((cleanIbanL iban.data).drop 4)] at hB
        rcases List.mem_append.mp hB with hB | hB
        · unfold regexFourUpper at h4
          rw [Bool.and_eq_true] at h4
          exact Or.inl (List.all_eq_true.mp h4.2 c hB)
        · rw [List.drop_drop, show (4 : Nat) + 4 = 8 from rfl] at hB
          unfold regexAlnum16 at h5
          rw [Bool.and_eq_true] at h5
          have hcb := List.all_eq_true.mp h5.2 c hB
          rw [Bool.or_eq_true] at hcb
          rcases hcb with h' | h'
          · exact Or.inl h'
          · exact Or.inr h'

theorem validateIbanChecksum_isSome (iban : String)
    (h : ∀ c ∈ cleanIbanL iban.data, isUpperAZ c = true ∨ isDigit09 c = true) :
    (validateIbanChecksum iban).isSome = true := by
  have hd : ∀ c ∈ (cleanIbanL iban.data).drop 4 ++ (cleanIbanL iban.data).take 4,
      isUpperAZ c = true ∨ isDigit09 c = true := by
    intro c hc
    rcases List.mem_append.mp hc with hc | hc
    · exact h c (List.mem_of_mem_drop hc)
    · exact h c (List.mem_of_mem_take hc)
  show (Option.map (fun r => r == 1) (bigIntMod97Aux 0 (convertLettersToNumbers
      ((cleanIbanL iban.data).drop 4 ++ (cleanIbanL iban.data).take 4)))).isSome = true
  cases haux : bigIntMod97Aux 0 (convertLettersToNumbers
      ((cleanIbanL iban.data).drop 4 ++ (cleanIbanL iban.data).take 4)) with
  | none =>
    have := bigIntMod97Aux_isSome _ 0 (conv_all_digits _ hd)
    rw [haux] at this
    simp at this
  | some v => rfl

theorem validateIban_isSome (iban : String) : (validateIban iban).isSome = true := by
  unfold validateIban
  split
  · rfl
  · split
    · rfl
    case isFalse hv =>
      have hvt : (validateRomanianIbanStructure (cleanIban iban)).isValid = true := by
        cases hb : (validateRomanianIbanStructure (cleanIban iban)).isValid
        · exact absurd hb hv
        · rfl
      have hsome := validateIbanChecksum_isSome (cleanIban iban)
        (structValid_chars (cleanIban iban) hvt)
      cases hcs : validateIbanChecksum (cleanIban iban) with
      | none => rw [hcs] at hsome; simp at hsome
      | some b =>
        cases b <;> rfl

theorem validateIbanRealTime_isSome (iban : String) :
    (validateIbanRealTime iban).isSome = true := by
  unfold validateIbanRealTime
  split_ifs <;> first
    | rfl
    | exact validateIban_isSome _

/-- C8 (counterexample): `validateIbanChecksum` does not return normally on
every input: on `"!"` the character reaches `BigInt` conversion and the
model yields `none` (a thrown SyntaxError in the source); it also returns a
bare boolean rather than a structured valid/error result. -/
theorem c8_counterexample : validateIbanChecksum "!" = none := by decide

/-- C8 (amended): `validateIban` and `validateIbanRealTime` (and trivially
the pure `validateRomanianIbanStructure`) return normally on every input
string, including the empty string, yielding structured results; the
exception inside `validateIbanChecksum` cannot propagate through them
because the checksum only runs on structurally valid (hence alphanumeric)
cleaned strings. -/
theorem c8_thm (iban : String) :
    (validateIban iban).isSome = true ∧ (validateIbanRealTime iban).isSome = true :=
  ⟨validateIban_isSome iban, validateIbanRealTime_isSome iban⟩
